import Mathlib

/-!
Verification of the session-lifecycle / webhook core of the `stapply-ai/agent`
repository (`server/utils/browser.py`, `server/utils/webhook.py`).

Python strings are modelled as `List Char`.  External library calls
(HMAC-SHA256, `json.dumps`, HTTP requests, subprocess spawning, the clock)
are abstracted as explicit parameters or outcome oracles; all control flow,
checks and string manipulation are translated directly from the source.
-/

set_option maxRecDepth 4000

/-- Python `str`, modelled as a list of characters. -/
abbrev Str := List Char

/-- Characters of a Lean string literal, used to transcribe Python literals. -/
def str (s : String) : Str := s.data

/-- Python truthiness of a string: non-empty. -/
def pyTruthy (s : Str) : Bool := !s.isEmpty

/-- Python truthiness of an `Optional[str]`: not `None` and non-empty. -/
def pyOptTruthy (o : Option Str) : Bool :=
  match o with
  | none => false
  | some s => !s.isEmpty

/-- `s` starts with `p` (Python `str.startswith`). -/
def strStarts : Str → Str → Bool
  | _, [] => true
  | [], _ :: _ => false
  | c :: s, d :: p => c = d && strStarts s p

/-- Strip leading and trailing whitespace (Python `str.strip()` as used by `int`). -/
def stripWs (s : Str) : Str :=
  ((s.dropWhile Char.isWhitespace).reverse.dropWhile Char.isWhitespace).reverse

/-- Numeric value of a digit string. -/
def digitsVal (ds : Str) : Nat :=
  ds.foldl (fun a c => a * 10 + (c.toNat - '0'.toNat)) 0

/-- Python `int(s)` for a decimal string: strips whitespace, allows one sign,
then requires a non-empty run of digits; otherwise raises `ValueError`,
modelled as `none`.  (Digit-grouping underscores are not modelled; no claim
exercises them.) -/
def pyInt (s : Str) : Option Int :=
  match stripWs s with
  | [] => none
  | '-' :: ds =>
      if ds.isEmpty then none
      else if ds.all Char.isDigit then some (-(digitsVal ds : Int)) else none
  | '+' :: ds =>
      if ds.isEmpty then none
      else if ds.all Char.isDigit then some (digitsVal ds : Int) else none
  | ds =>
      if ds.all Char.isDigit then some (digitsVal ds : Int) else none

/-!
## `server/utils/webhook.py`

`hmacHex secret payload` abstracts
`hmac.new(secret.encode(), payload.encode(), hashlib.sha256).hexdigest()`;
`now` abstracts `int(time.time())` at the moment of the call.
-/

/-- The replay-protection block of `verify_webhook_signature`
(`# Check timestamp to prevent replay attacks`): runs only when the
timestamp argument is truthy (`if timestamp:`); inside, `int(timestamp)`
raising `ValueError` yields `return False`, and a request older than the
tolerance yields `return False`. -/
def tsAccept (now tolerance : Int) (timestamp : Option Str) : Bool :=
  if pyOptTruthy timestamp then
    match pyInt (timestamp.getD []) with
    | none => false                       -- int() raised → return False
    | some request_time =>
        !(decide (now - request_time > tolerance))
  else true

/-- Embedding of `verify_webhook_signature(payload, signature, secret,
timestamp=None, tolerance=300)` from `server/utils/webhook.py`. -/
def verify_webhook_signature (hmacHex : Str → Str → Str) (now : Int)
    (payload signature secret : Str)
    (timestamp : Option Str) (tolerance : Int) : Bool :=
  -- `if not signature or not secret: return False`
  if !pyTruthy signature || !pyTruthy secret then false
  else if !tsAccept now tolerance timestamp then false
  else if !strStarts signature (str "sha256=") then false
  else
    -- `expected_signature = signature[7:]`
    let expected_signature := signature.drop 7
    let computed_signature := hmacHex secret payload
    -- `hmac.compare_digest(expected, computed)` — equality in constant time
    decide (expected_signature = computed_signature)

/-- Embedding of `generate_webhook_signature(payload, secret)` from
`server/utils/browser.py` (raises `ValueError` on an empty secret). -/
def generate_webhook_signature (hmacHex : Str → Str → Str)
    (payload secret : Str) : Except Str Str :=
  if !pyTruthy secret then .error (str "Webhook secret is required for signing")
  else .ok (str "sha256=" ++ hmacHex secret payload)

/-! Helper lemmas about the string primitives. -/

theorem strStarts_nil (s : Str) : strStarts s [] = true := by
  cases s <;> rfl

theorem strStarts_append (p t : Str) : strStarts (p ++ t) p = true := by
  induction p with
  | nil => simpa using strStarts_nil t
  | cons c p ih => simp [strStarts, ih]

theorem pyInt_ne_empty {t : Str} {v : Int} (h : pyInt t = some v) : t ≠ [] := by
  intro he
  subst he
  simp [pyInt, stripWs] at h

theorem drop_seven_tag (h : Str) : (str "sha256=" ++ h).drop 7 = h := by
  simp [str]

/-- The branch taken by `verify_webhook_signature` when the signature is
well-formed and fresh reduces to digest comparison. -/
theorem verify_ok_of_fresh (hmacHex : Str → Str → Str) (now : Int)
    (payload secret t : Str) (rt tolerance : Int)
    (hsec : secret ≠ []) (hts : pyInt t = some rt) (hfresh : now - rt ≤ tolerance) :
    verify_webhook_signature hmacHex now payload
      (str "sha256=" ++ hmacHex secret payload) secret (some t) tolerance = true := by
  have htne : t ≠ [] := pyInt_ne_empty hts
  unfold verify_webhook_signature
  have h1 : pyTruthy (str "sha256=" ++ hmacHex secret payload) = true := by
    simp [pyTruthy, str]
  have h2 : pyTruthy secret = true := by
    simp [pyTruthy, hsec]
  have h3 : pyOptTruthy (some t) = true := by
    simp [pyOptTruthy, htne]
  have h4 : tsAccept now tolerance (some t) = true := by
    have h4' : ¬ (now - rt > tolerance) := by omega
    simp [tsAccept, h3, hts, h4']
  simp [h1, h2, h4, strStarts_append, drop_seven_tag]

/-- A demonstration digest function used to instantiate the abstract HMAC in
witnesses: `hmacDemo secret payload` separates its inputs, so distinct
payloads give distinct digests. -/
def hmacDemo (secret payload : Str) : Str := secret ++ str "|" ++ payload

/-- Complete characterization of when `verify_webhook_signature` accepts. -/
theorem verify_webhook_signature_iff (hmacHex : Str → Str → Str) (now : Int)
    (payload signature secret : Str) (timestamp : Option Str) (tolerance : Int) :
    verify_webhook_signature hmacHex now payload signature secret timestamp tolerance = true ↔
      (pyTruthy signature = true ∧ pyTruthy secret = true ∧
       tsAccept now tolerance timestamp = true ∧
       strStarts signature (str "sha256=") = true ∧
       signature.drop 7 = hmacHex secret payload) := by
  unfold verify_webhook_signature
  cases h1 : pyTruthy signature <;> cases h2 : pyTruthy secret <;>
    cases h3 : tsAccept now tolerance timestamp <;>
      cases h4 : strStarts signature (str "sha256=") <;> simp

/-- When the timestamp is truthy, `tsAccept` accepts exactly when it parses
to an integer within the tolerance window. -/
theorem tsAccept_some_iff (now tolerance : Int) (t : Str) (htne : t ≠ []) :
    tsAccept now tolerance (some t) = true ↔
      ∃ rt, pyInt t = some rt ∧ ¬ now - rt > tolerance := by
  have h3 : pyOptTruthy (some t) = true := by simp [pyOptTruthy, htne]
  cases hres : pyInt t with
  | none => simp [tsAccept, h3, hres]
  | some rt =>
    constructor
    · intro h
      refine ⟨rt, rfl, ?_⟩
      simp [tsAccept, h3, hres] at h
      omega
    · rintro ⟨rt', hrt', hle⟩
      injection hrt' with h
      subst h
      simp [tsAccept, h3, hres]
      omega

/-- Claim C3 (amended): `verify_webhook_signature` returns `False` when the
signature is missing (empty), when the signature does not start with the
scheme tag `"sha256="`, when a present (truthy) timestamp is malformed, and
when a present timestamp is older than the tolerance window; an absent
timestamp, however, skips the replay check entirely, so with a correct HMAC
verification succeeds without any timestamp. -/
theorem verify_reject_conditions (hmacHex : Str → Str → Str) (now : Int)
    (payload signature secret : Str) (timestamp : Option Str) (tolerance : Int) :
    (signature = [] →
      verify_webhook_signature hmacHex now payload signature secret timestamp tolerance = false)
    ∧ (strStarts signature (str "sha256=") = false →
      verify_webhook_signature hmacHex now payload signature secret timestamp tolerance = false)
    ∧ (∀ t, timestamp = some t → t ≠ [] → pyInt t = none →
      verify_webhook_signature hmacHex now payload signature secret timestamp tolerance = false)
    ∧ (∀ t rt, timestamp = some t → pyInt t = some rt → now - rt > tolerance →
      verify_webhook_signature hmacHex now payload signature secret timestamp tolerance = false)
    ∧ (secret ≠ [] →
      verify_webhook_signature hmacHex now payload
        (str "sha256=" ++ hmacHex secret payload) secret none tolerance = true) := by
  refine ⟨?_, ?_, ?_, ?_, ?_⟩
  · intro he
    subst he
    simp [verify_webhook_signature, pyTruthy]
  · intro hp
    cases hv : verify_webhook_signature hmacHex now payload signature secret timestamp tolerance
    · rfl
    · have h := (verify_webhook_signature_iff hmacHex now payload signature secret
        timestamp tolerance).mp hv
      rw [hp] at h
      exact absurd h.2.2.2.1 (by simp)
  · intro t ht htne hparse
    subst ht
    cases hv : verify_webhook_signature hmacHex now payload signature secret (some t) tolerance
    · rfl
    · have h := (verify_webhook_signature_iff hmacHex now payload signature secret
        (some t) tolerance).mp hv
      obtain ⟨rt, hrt, -⟩ := (tsAccept_some_iff now tolerance t htne).mp h.2.2.1
      rw [hparse] at hrt
      cases hrt
  · intro t rt ht hparse hold
    subst ht
    cases hv : verify_webhook_signature hmacHex now payload signature secret (some t) tolerance
    · rfl
    · have h := (verify_webhook_signature_iff hmacHex now payload signature secret
        (some t) tolerance).mp hv
      obtain ⟨rt', hrt', hle⟩ :=
        (tsAccept_some_iff now tolerance t (pyInt_ne_empty hparse)).mp h.2.2.1
      rw [hparse] at hrt'
      injection hrt' with he
      subst he
      exact absurd hold hle
  · intro hsec
    rw [verify_webhook_signature_iff]
    exact ⟨by simp [pyTruthy, str], by simp [pyTruthy, hsec],
      by simp [tsAccept, pyOptTruthy], strStarts_append _ _, drop_seven_tag _⟩

theorem verify_reject_conditions_witness :
    verify_webhook_signature hmacDemo 1000 (str "p") (str "bogus") (str "s")
      (some (str "2000")) 300 = false
    ∧ verify_webhook_signature hmacDemo 1000 (str "p")
        (str "sha256=" ++ hmacDemo (str "s") (str "p")) (str "s")
        (some (str "abc")) 300 = false
    ∧ verify_webhook_signature hmacDemo 1000 (str "p")
        (str "sha256=" ++ hmacDemo (str "s") (str "p")) (str "s")
        (some (str "100")) 300 = false
    ∧ verify_webhook_signature hmacDemo 1000 (str "p")
        (str "sha256=" ++ hmacDemo (str "s") (str "p")) (str "s")
        none 300 = true :=
  ⟨(verify_reject_conditions hmacDemo 1000 (str "p") (str "bogus") (str "s")
      (some (str "2000")) 300).2.1 (by decide),
   (verify_reject_conditions hmacDemo 1000 (str "p")
      (str "sha256=" ++ hmacDemo (str "s") (str "p")) (str "s")
      (some (str "abc")) 300).2.2.1 (str "abc") rfl (by decide) (by decide),
   (verify_reject_conditions hmacDemo 1000 (str "p")
      (str "sha256=" ++ hmacDemo (str "s") (str "p")) (str "s")
      (some (str "100")) 300).2.2.2.1 (str "100") 100 rfl (by decide) (by decide),
   (verify_reject_conditions hmacDemo 1000 (str "p")
      (str "sha256=" ++ hmacDemo (str "s") (str "p")) (str "s")
      none 300).2.2.2.2 (by decide)⟩

/-- Claim C3 counterexample: with an absent timestamp and a correct HMAC,
`verify_webhook_signature` returns `True`, so an absent timestamp does not
cause rejection (the replay check is simply skipped). -/
theorem verify_absent_timestamp_cex :
    verify_webhook_signature hmacDemo 1000 (str "p")
      (str "sha256=" ++ hmacDemo (str "s") (str "p")) (str "s") none 300 = true := by
  decide

/-- Claim C4: for any payload and non-empty secret, verifying the signature
produced by `generate_webhook_signature` with a fresh timestamp succeeds;
a payload whose digest differs (the formal rendering of "changing any one
byte", since HMAC-SHA256 is collision-free on single-byte edits) makes
verification fail; and a timestamp older than the tolerance window makes
verification fail even with a correct signature. -/
theorem webhook_sign_verify_roundtrip (hmacHex : Str → Str → Str)
    (payload payload' secret sig t : Str) (now rt tolerance : Int)
    (hsec : secret ≠ [])
    (hsig : generate_webhook_signature hmacHex payload secret = .ok sig)
    (hts : pyInt t = some rt) (hfresh : now - rt ≤ tolerance) :
    verify_webhook_signature hmacHex now payload sig secret (some t) tolerance = true
    ∧ (hmacHex secret payload' ≠ hmacHex secret payload →
        verify_webhook_signature hmacHex now payload' sig secret (some t) tolerance = false)
    ∧ (∀ now', now' - rt > tolerance →
        verify_webhook_signature hmacHex now' payload sig secret (some t) tolerance = false) := by
  have h2 : pyTruthy secret = true := by simp [pyTruthy, hsec]
  have hsig' : sig = str "sha256=" ++ hmacHex secret payload := by
    unfold generate_webhook_signature at hsig
    simp [h2] at hsig
    exact hsig.symm
  subst hsig'
  refine ⟨verify_ok_of_fresh hmacHex now payload secret t rt tolerance hsec hts hfresh,
    ?_, ?_⟩
  · intro hne
    cases hv : verify_webhook_signature hmacHex now payload'
        (str "sha256=" ++ hmacHex secret payload) secret (some t) tolerance
    · rfl
    · have h := (verify_webhook_signature_iff hmacHex now payload'
        (str "sha256=" ++ hmacHex secret payload) secret (some t) tolerance).mp hv
      have h5 := h.2.2.2.2
      rw [drop_seven_tag] at h5
      exact absurd h5.symm hne
  · intro now' hold
    cases hv : verify_webhook_signature hmacHex now' payload
        (str "sha256=" ++ hmacHex secret payload) secret (some t) tolerance
    · rfl
    · have h := (verify_webhook_signature_iff hmacHex now' payload
        (str "sha256=" ++ hmacHex secret payload) secret (some t) tolerance).mp hv
      obtain ⟨rt', hrt', hle⟩ :=
        (tsAccept_some_iff now' tolerance t (pyInt_ne_empty hts)).mp h.2.2.1
      rw [hts] at hrt'
      injection hrt' with he
      subst he
      exact absurd hold hle

theorem webhook_sign_verify_roundtrip_witness :
    verify_webhook_signature hmacDemo 200 (str "a")
      (str "sha256=" ++ hmacDemo (str "s") (str "a")) (str "s")
      (some (str "100")) 300 = true
    ∧ verify_webhook_signature hmacDemo 200 (str "b")
        (str "sha256=" ++ hmacDemo (str "s") (str "a")) (str "s")
        (some (str "100")) 300 = false
    ∧ verify_webhook_signature hmacDemo 600 (str "a")
        (str "sha256=" ++ hmacDemo (str "s") (str "a")) (str "s")
        (some (str "100")) 300 = false := by
  obtain ⟨h1, h2, h3⟩ := webhook_sign_verify_roundtrip hmacDemo (str "a") (str "b")
    (str "s") (str "sha256=" ++ hmacDemo (str "s") (str "a")) (str "100") 200 100 300
    (by decide) (by rfl) (by decide) (by decide)
  exact ⟨h1, h2 (by decide), h3 600 (by decide)⟩

/-- Claim C10: the replay window of `verify_webhook_signature` is one-sided —
a timestamp strictly in the future (by any amount) passes the check, because
only `current_time - request_time > tolerance` is rejected, so a correct
signature verifies. -/
theorem verify_future_timestamp_ok (hmacHex : Str → Str → Str)
    (payload secret t : Str) (now rt tolerance : Int)
    (hsec : secret ≠ []) (hts : pyInt t = some rt) (hfut : now < rt)
    (htol : 0 ≤ tolerance) :
    verify_webhook_signature hmacHex now payload
      (str "sha256=" ++ hmacHex secret payload) secret (some t) tolerance = true :=
  verify_ok_of_fresh hmacHex now payload secret t rt tolerance hsec hts (by omega)

theorem verify_future_timestamp_ok_witness :
    verify_webhook_signature hmacDemo 1000 (str "p")
      (str "sha256=" ++ hmacDemo (str "s") (str "p")) (str "s")
      (some (str "999999")) 300 = true :=
  verify_future_timestamp_ok hmacDemo (str "p") (str "s") (str "999999") 1000 999999 300
    (by decide) (by decide) (by decide) (by decide)

/-!
## `send_webhook` from `server/utils/browser.py`

`dumps` abstracts `json.dumps(payload, sort_keys=True)`, `now` abstracts
`int(time.time())`, `webhook_secret` the `WEBHOOK_SECRET` environment
variable, and `post` the outcome of the single `session.post` call.
-/

/-- Decimal rendering of an integer (Python `str(int)`). -/
def intStr (n : Int) : Str := (toString n).data

/-- Outcome of the single `session.post` attempt inside `send_webhook`. -/
inductive PostOutcome
  | resp (status : Int) (body : Str)   -- a response was received
  | connError (msg : Str)              -- `aiohttp.ClientConnectorError` raised
  | timeoutError (msg : Str)           -- a timeout (`asyncio.TimeoutError`) raised
  | otherError (msg : Str)             -- any other exception raised
deriving DecidableEq

/-- The webhook payload dict built by `send_webhook`. -/
structure WebhookPayload where
  success : Bool
  user_id : Str
  metadata : List (Str × Str)
  timestamp : Int

/-- Observable actions of `send_webhook` (network activity and log lines).
The `logTimeout` and `logOtherError` lines exist in the source but are
unreachable (see `send_webhook` below); the code never emits them. -/
inductive WebhookEv
  | warnUnsigned
  | httpPost (url : Str) (body : Str) (headers : List (Str × Str)) (timeoutSecs : Nat)
  | logSuccess (url : Str)
  | logFailure (status : Int)
  | logConnError (url : Str)
  | logTimeout (url : Str)
  | logOtherError (url : Str)
deriving DecidableEq

/-- The message of the `TypeError` CPython raises when an `except` clause
names a class that is not a `BaseException` subclass. -/
def typeErrorCatchMsg : Str :=
  str "TypeError: catching classes that do not inherit from BaseException is not allowed"

/-- Is the event a network POST? -/
def isHttpPost : WebhookEv → Bool
  | .httpPost _ _ _ _ => true
  | _ => false

/-- Embedding of `send_webhook(webhook_url, user_id, success, metadata)` from
`server/utils/browser.py`.  An `Except.error` result models an exception
escaping the function.  The `except` ladder after the POST is
`ClientConnectorError` / `aiohttp.ClientTimeout` / `Exception`; since
`aiohttp.ClientTimeout` is aiohttp's timeout **configuration dataclass**
(the same class the function builds as `timeout=ClientTimeout(total=30)`),
not an exception class, CPython's clause matching raises
`TypeError: catching classes that do not inherit from BaseException is not
allowed` for every raised exception that is not a `ClientConnectorError`,
and that `TypeError` escapes the whole `try` — the final `except Exception`
clause is unreachable. -/
def send_webhook (hmacHex : Str → Str → Str) (dumps : WebhookPayload → Str)
    (now : Int) (webhook_secret : Option Str)
    (webhook_url user_id : Str) (success : Bool)
    (metadata : Option (List (Str × Str))) (post : PostOutcome) :
    Except Str (List WebhookEv) :=
  -- `if not webhook_url: return`
  if !pyTruthy webhook_url then .ok []
  else
    let payload : WebhookPayload := ⟨success, user_id, metadata.getD [], now⟩
    let payload_json := dumps payload
    let baseHeaders : List (Str × Str) := [(str "Content-Type", str "application/json")]
    -- `if webhook_secret:` sign, else warn and send unsigned
    let signed : Except Str (List (Str × Str) × List WebhookEv) :=
      if pyOptTruthy webhook_secret then
        match generate_webhook_signature hmacHex payload_json (webhook_secret.getD []) with
        | .error e => .error e   -- would propagate; unreachable as the secret is truthy
        | .ok signature =>
            .ok (baseHeaders ++ [(str "X-Webhook-Signature", signature),
                  (str "X-Webhook-Timestamp", intStr now)], [])
      else .ok (baseHeaders, [.warnUnsigned])
    match signed with
    | .error e => .error e
    | .ok (headers, evs0) =>
        let postEv := WebhookEv.httpPost webhook_url payload_json headers 30
        match post with
        | .resp status _ =>
            if status = 200 then .ok (evs0 ++ [postEv, .logSuccess webhook_url])
            else .ok (evs0 ++ [postEv, .logFailure status])
        | .connError _ => .ok (evs0 ++ [postEv, .logConnError webhook_url])
        | .timeoutError _ =>
            -- clause matching on the non-exception class raises; escapes
            .error typeErrorCatchMsg
        | .otherError _ =>
            -- first clause does not match, second clause's matching raises
            .error typeErrorCatchMsg

theorem pyTruthy_false_iff (s : Str) : pyTruthy s = false ↔ s = [] := by
  cases s <;> simp [pyTruthy]

/-- Claim C9 (code-bug evidence): `send_webhook` skips silently on an empty
URL, and catches and logs `ClientConnectorError`s (and handles responses of
any status) — but it does **not** return normally on a timeout or any other
exception during the POST: because `except aiohttp.ClientTimeout` names
aiohttp's timeout configuration dataclass rather than an exception class,
clause matching itself raises a `TypeError` that escapes `send_webhook`,
and the final `except Exception` handler is unreachable.  So the claim's
"never raises" is false of the code on exactly those outcomes. -/
theorem send_webhook_raises_typeerror (hmacHex : Str → Str → Str)
    (dumps : WebhookPayload → Str) (now : Int) (webhook_secret : Option Str)
    (webhook_url user_id : Str) (success : Bool)
    (metadata : Option (List (Str × Str))) (m : Str) :
    (∀ post, send_webhook hmacHex dumps now webhook_secret [] user_id success
        metadata post = .ok [])
    ∧ (webhook_url ≠ [] →
        send_webhook hmacHex dumps now webhook_secret webhook_url user_id success
          metadata (.timeoutError m) = .error typeErrorCatchMsg
        ∧ send_webhook hmacHex dumps now webhook_secret webhook_url user_id success
            metadata (.otherError m) = .error typeErrorCatchMsg
        ∧ ∃ evs, send_webhook hmacHex dumps now webhook_secret webhook_url user_id
            success metadata (.connError m) = .ok evs
            ∧ evs.countP isHttpPost = 1) := by
  constructor
  · intro post
    rfl
  · intro hne
    have hurl : pyTruthy webhook_url = true := by
      cases hu : pyTruthy webhook_url
      · exact absurd ((pyTruthy_false_iff webhook_url).mp hu) hne
      · rfl
    cases hsec : pyOptTruthy webhook_secret with
    | false =>
      refine ⟨?_, ?_, ?_⟩
      · simp [send_webhook, hurl, hsec]
      · simp [send_webhook, hurl, hsec]
      · simp only [send_webhook, hurl, hsec, Bool.not_true, Bool.not_false, reduceIte]
        refine ⟨_, rfl, ?_⟩
        simp [List.countP_cons, isHttpPost]
    | true =>
      have hsne : pyTruthy (webhook_secret.getD []) = true := by
        cases webhook_secret with
        | none => simp [pyOptTruthy] at hsec
        | some s => simpa [pyOptTruthy, pyTruthy] using hsec
      refine ⟨?_, ?_, ?_⟩
      · simp [send_webhook, hurl, hsec, hsne, generate_webhook_signature]
      · simp [send_webhook, hurl, hsec, hsne, generate_webhook_signature]
      · simp only [send_webhook, hurl, hsec, hsne, generate_webhook_signature,
          Bool.not_true, Bool.not_false, reduceIte]
        refine ⟨_, rfl, ?_⟩
        simp [List.countP_cons, isHttpPost]

theorem send_webhook_raises_typeerror_witness :
    send_webhook hmacDemo (fun _ => str "json") 0 none (str "https://caller/hook")
      (str "u1") true none (.timeoutError (str "timed out")) =
      .error typeErrorCatchMsg :=
  ((send_webhook_raises_typeerror hmacDemo (fun _ => str "json") 0 none
      (str "https://caller/hook") (str "u1") true none (str "timed out")).2
    (by decide)).1

/-!
## `_run_agent_background` from `server/utils/browser.py`

The body is a `try:` block (resume download, Playwright CDP connection,
agent construction and run, result saving) followed by a `finally:` block
(close the Playwright browser, terminate Chrome, remove the temp profile
directory — all inside their own `try/except` — then delete the resume and
log completion).  There is no `except` clause and the function body contains
no call to `send_webhook`; the `webhook_url` parameter is received but never
used.  Each fallible step's outcome is an oracle field; `Except.error` in
the result models an exception escaping the coroutine. -/

structure RunOutcomes where
  /-- `download_resume(resume_url)`: local file path, or an exception. -/
  downloadResume : Except Str Str
  /-- `connect_playwright_to_cdp(cdp_url)`: a boolean, or an exception. -/
  connectPlaywright : Except Str Bool
  /-- `agent.run()`: completes, or raises. -/
  agentRun : Except Str Unit
  /-- cost-data conversion plus `json.dump` of the result file. -/
  saveResult : Except Str Unit
  /-- truthiness of the module-global `playwright_browser`. -/
  playwrightBrowserOpen : Bool
  /-- `playwright_browser.close()` and the global reset: ok, or raises. -/
  closeBrowser : Except Str Unit
  /-- does `chrome_process.wait()` return within the 5s `wait_for` bound? -/
  terminateWaitOk : Bool
  /-- `os.path.exists(user_data_dir)`. -/
  userDataDirExists : Bool

/-- Observable actions of `_run_agent_background`. -/
inductive RunEv
  | downloadResume
  | connectPlaywright
  | agentRun
  | saveResult
  | sendWebhook          -- present in the event alphabet; the code never emits it
  | closePlaywright
  | terminateChrome
  | killChrome
  | rmUserDataDir
  | logCleanupError
  | cleanupResume
  | logCleanupComplete
deriving DecidableEq

/-- The `try:` block of `_run_agent_background`: result, the `file_path`
local (set only once the resume download returned), and the actions taken. -/
def runTry (resume_url : Str) (o : RunOutcomes) :
    Except Str Unit × Option Str × List RunEv :=
  -- `if resume_url:` download, else `file_path` stays None
  match (if pyTruthy resume_url then some o.downloadResume else none) with
  | some (.error e) => (.error e, none, [.downloadResume])
  | fpStep =>
    let fp : Option Str := match fpStep with
      | some (.ok p) => some p
      | _ => none
    let evs0 : List RunEv := match fpStep with
      | some _ => [.downloadResume]
      | none => []
    match o.connectPlaywright with
    | .error e => (.error e, fp, evs0 ++ [.connectPlaywright])
    | .ok false =>
        (.error (str "Failed to connect Playwright to browser. File uploads will not work."),
         fp, evs0 ++ [.connectPlaywright])
    | .ok true =>
      match o.agentRun with
      | .error e => (.error e, fp, evs0 ++ [.connectPlaywright, .agentRun])
      | .ok _ =>
        match o.saveResult with
        | .error e => (.error e, fp, evs0 ++ [.connectPlaywright, .agentRun, .saveResult])
        | .ok _ => (.ok (), fp, evs0 ++ [.connectPlaywright, .agentRun, .saveResult])

/-- The Chrome part of the cleanup `try:` block: terminate, kill after the
5-second wait times out, and remove the temp profile directory if present. -/
def chromeCleanup (o : RunOutcomes) : List RunEv :=
  [.terminateChrome] ++ (if o.terminateWaitOk then [] else [.killChrome])
    ++ (if o.userDataDirExists then [.rmUserDataDir] else [])

/-- The `finally:` block of `_run_agent_background`. -/
def runCleanup (fp : Option Str) (o : RunOutcomes) : List RunEv :=
  (if o.playwrightBrowserOpen then
    match o.closeBrowser with
    | .error _ => [.closePlaywright, .logCleanupError]
    | .ok _ => [.closePlaywright] ++ chromeCleanup o
   else chromeCleanup o)
  ++ (if fp.isSome then [.cleanupResume] else [])
  ++ [.logCleanupComplete]

/-- Embedding of `_run_agent_background(...)` from `server/utils/browser.py`:
the `try:` phase, then the `finally:` phase; with no `except` clause, an
exception raised in the `try:` phase re-raises after the `finally:` runs. -/
def run_agent_background (resume_url : Str) (o : RunOutcomes) :
    Except Str Unit × List RunEv :=
  match runTry resume_url o with
  | (res, fp, evs) => (res, evs ++ runCleanup fp o)

theorem run_agent_background_eq (resume_url : Str) (o : RunOutcomes) :
    run_agent_background resume_url o =
      ((runTry resume_url o).1,
       (runTry resume_url o).2.2 ++ runCleanup (runTry resume_url o).2.1 o) := rfl

theorem sendWebhook_not_mem_runTry (resume_url : Str) (o : RunOutcomes) :
    RunEv.sendWebhook ∉ (runTry resume_url o).2.2 := by
  cases hp : pyTruthy resume_url <;>
    cases hd : o.downloadResume <;>
      rcases hc : o.connectPlaywright with e' | (_ | _) <;>
        cases ha : o.agentRun <;>
          cases hs : o.saveResult <;>
            simp_all [runTry]

theorem sendWebhook_not_mem_runCleanup (fp : Option Str) (o : RunOutcomes) :
    RunEv.sendWebhook ∉ runCleanup fp o := by
  cases hb : o.playwrightBrowserOpen <;>
    cases hcl : o.closeBrowser <;>
      cases ht : o.terminateWaitOk <;>
        cases hu : o.userDataDirExists <;>
          cases hfp : fp.isSome <;>
            simp_all [runCleanup, chromeCleanup]

theorem logCleanupComplete_mem_runCleanup (fp : Option Str) (o : RunOutcomes) :
    RunEv.logCleanupComplete ∈ runCleanup fp o := by
  simp [runCleanup]

/-- Claim C1 (code-bug evidence): on every outcome of a background run —
success or any exception — `_run_agent_background` performs its cleanup pass
(the trace always ends with the cleanup-complete log) but makes **zero**
webhook delivery attempts: no path calls `send_webhook`, and the
`webhook_url` parameter is never used. -/
theorem run_agent_background_no_webhook (resume_url : Str) (o : RunOutcomes) :
    RunEv.sendWebhook ∉ (run_agent_background resume_url o).2
    ∧ RunEv.logCleanupComplete ∈ (run_agent_background resume_url o).2 := by
  rw [run_agent_background_eq]
  constructor
  · intro hmem
    rcases List.mem_append.mp hmem with h | h
    · exact sendWebhook_not_mem_runTry resume_url o h
    · exact sendWebhook_not_mem_runCleanup _ o h
  · exact List.mem_append.mpr
      (Or.inr (logCleanupComplete_mem_runCleanup _ o))

/-- Claim C2 (code-bug evidence): `_run_agent_background` has no `except`
boundary — whatever exception its `try:` phase raises is re-raised out of
the background coroutine unchanged (never converted into a failure payload
or webhook), although the `finally:` cleanup does still run.  In particular
a failing resume download propagates verbatim. -/
theorem run_agent_background_exception_propagates (resume_url : Str) (o : RunOutcomes) :
    (run_agent_background resume_url o).1 = (runTry resume_url o).1
    ∧ RunEv.logCleanupComplete ∈ (run_agent_background resume_url o).2
    ∧ (pyTruthy resume_url = true → ∀ e, o.downloadResume = .error e →
        (run_agent_background resume_url o).1 = .error e) := by
  refine ⟨rfl, ?_, ?_⟩
  · rw [run_agent_background_eq]
    exact List.mem_append.mpr (Or.inr (logCleanupComplete_mem_runCleanup _ o))
  · intro hp e hd
    rw [run_agent_background_eq]
    simp [runTry, hp, hd]

/-- A concrete outcome assignment where the resume download raises `"boom"`
and everything else would succeed. -/
def runOutcomesDemo : RunOutcomes :=
  ⟨.error (str "boom"), .ok true, .ok (), .ok (), true, .ok (), true, true⟩

theorem run_agent_background_exception_propagates_witness :
    (run_agent_background (str "https://files/r.pdf") runOutcomesDemo).1 =
      .error (str "boom") :=
  (run_agent_background_exception_propagates (str "https://files/r.pdf")
    runOutcomesDemo).2.2 (by decide) (str "boom") rfl

/-!
## `start_chrome_with_debug_port` from `server/utils/browser.py`

The executable-probe loop is abstracted by its outcome (`chromeExe`); the
poll oracle gives the outcome of the `GET /json/version` request on each
0-indexed loop iteration. -/

/-- Outcome of one readiness poll of `GET http://host:port/json/version`. -/
inductive PollResp
  | status (code : Int)   -- a response with this HTTP status
  | exn (msg : Str)       -- the request raised (connection refused, timeout, …)

/-- Observable actions of `start_chrome_with_debug_port`. -/
inductive ChromeEv
  | mkdtemp
  | launch
  | getVersion (attempt : Nat)
  | sleep1
  | terminate
  | waitProc
deriving DecidableEq

/-- Embedding of `_debug_connect_host(debug_address)`: hostname used by local
processes to talk to Chrome (the Python `None` case cannot arise for a `str`
argument and is covered by the empty string). -/
def debug_connect_host (debug_address : Str) : Str :=
  if debug_address = str "0.0.0.0" ∨ debug_address = [] then str "127.0.0.1"
  else if debug_address = str "localhost" then str "127.0.0.1"
  else debug_address

/-- Did this poll see HTTP 200 (`if response.status == 200`)? -/
def pollHit (r : PollResp) : Bool :=
  match r with
  | .status c => c == 200
  | .exn _ => false

/-- The `for _ in range(20)` readiness loop: on a 200 response set
`cdp_ready` and `break` (no sleep); on any other status or an exception,
`await asyncio.sleep(1)` and try again. -/
def pollLoop (resp : Nat → PollResp) : Nat → Nat → Bool × List ChromeEv
  | 0, _ => (false, [])
  | n + 1, i =>
      if pollHit (resp i) then (true, [.getVersion i])
      else
        let rest := pollLoop resp n (i + 1)
        (rest.1, .getVersion i :: .sleep1 :: rest.2)

/-- Embedding of `start_chrome_with_debug_port(port, debug_address)`:
temp profile dir, executable probe, launch, the 20-attempt readiness loop,
then either success or terminate-and-raise.  The returned tuple is
`(port, user_data_dir, connect_host)`; the process handle is carried by the
events. -/
def start_chrome_with_debug_port (port : Int) (debug_address : Str)
    (chromeExe : Option Str) (resp : Nat → PollResp) :
    Except Str (Int × Str × Str) × List ChromeEv :=
  let user_data_dir := str "chrome_cdp_tmp"
  match chromeExe with
  | none => (.error (str "❌ Chrome not found. Please install Chrome or Chromium."),
      [.mkdtemp])
  | some _ =>
    let connect_host := debug_connect_host debug_address
    let poll := pollLoop resp 20 0
    if poll.1 then
      (.ok (port, user_data_dir, connect_host), [.mkdtemp, .launch] ++ poll.2)
    else
      (.error (str "❌ Chrome failed to start with CDP"),
       [.mkdtemp, .launch] ++ poll.2 ++ [.terminate, .waitProc])

theorem pollLoop_ready_iff (resp : Nat → PollResp) (n i : Nat) :
    (pollLoop resp n i).1 = true ↔ ∃ j, i ≤ j ∧ j < i + n ∧ pollHit (resp j) = true := by
  induction n generalizing i with
  | zero =>
    simp [pollLoop]
    omega
  | succ n ih =>
    by_cases h : pollHit (resp i) = true
    · simp [pollLoop, h]
      exact ⟨i, le_refl i, by omega, h⟩
    · simp only [pollLoop, h, Bool.false_eq_true, if_false]
      rw [ih (i + 1)]
      constructor
      · rintro ⟨j, hj1, hj2, hj3⟩
        exact ⟨j, by omega, by omega, hj3⟩
      · rintro ⟨j, hj1, hj2, hj3⟩
        refine ⟨j, ?_, by omega, hj3⟩
        rcases Nat.eq_or_lt_of_le hj1 with he | hlt
        · subst he
          rw [hj3] at h
          exact absurd rfl h
        · omega

theorem pollLoop_all_miss (resp : Nat → PollResp) (n i : Nat)
    (h : ∀ j, i ≤ j → j < i + n → pollHit (resp j) = false) :
    pollLoop resp n i =
      (false, (List.range' i n).flatMap (fun j => [.getVersion j, .sleep1])) := by
  induction n generalizing i with
  | zero => simp [pollLoop]
  | succ n ih =>
    have h0 : pollHit (resp i) = false := h i (le_refl i) (by omega)
    rw [pollLoop, h0]
    simp only [Bool.false_eq_true, if_false]
    rw [ih (i + 1) (fun j hj1 hj2 => h j (by omega) (by omega))]
    simp [List.range'_succ]

/-- Claim C6: with an executable found, `start_chrome_with_debug_port` polls
`GET /json/version` up to 20 attempts (sleeping 1 second after each failed
one); it succeeds exactly when some attempt within the budget sees HTTP 200,
and when none does it makes exactly 20 polls, terminates the spawned process
and raises the descriptive `RuntimeError` "❌ Chrome failed to start with
CDP". -/
theorem start_chrome_poll_budget (port : Int) (debug_address exe : Str)
    (resp : Nat → PollResp) :
    ((start_chrome_with_debug_port port debug_address (some exe) resp).1.isOk = true ↔
      ∃ j, j < 20 ∧ pollHit (resp j) = true)
    ∧ ((∀ j, j < 20 → pollHit (resp j) = false) →
        start_chrome_with_debug_port port debug_address (some exe) resp =
          (.error (str "❌ Chrome failed to start with CDP"),
           [.mkdtemp, .launch] ++
             (List.range' 0 20).flatMap (fun j => [.getVersion j, .sleep1]) ++
             [.terminate, .waitProc])) := by
  have hiff := pollLoop_ready_iff resp 20 0
  constructor
  · cases hp : (pollLoop resp 20 0).1 with
    | false =>
      rw [hp] at hiff
      simp [start_chrome_with_debug_port, hp, Except.isOk, Except.toBool]
      intro j hj
      cases hh : pollHit (resp j) with
      | false => rfl
      | true =>
        have : False := by simpa using hiff.mpr ⟨j, by omega, by omega, hh⟩
        exact this.elim
    | true =>
      rw [hp] at hiff
      simp [start_chrome_with_debug_port, hp, Except.isOk, Except.toBool]
      obtain ⟨j, hj1, hj2, hj3⟩ := hiff.mp rfl
      exact ⟨j, by omega, hj3⟩
  · intro hmiss
    have hall := pollLoop_all_miss resp 20 0 (fun j _ hj2 => hmiss j (by omega))
    simp [start_chrome_with_debug_port, hall]

theorem start_chrome_poll_budget_witness :
    start_chrome_with_debug_port 9222 (str "127.0.0.1")
        (some (str "/usr/bin/google-chrome")) (fun _ => .exn (str "refused")) =
      (.error (str "❌ Chrome failed to start with CDP"),
       [.mkdtemp, .launch] ++
         (List.range' 0 20).flatMap (fun j => [.getVersion j, .sleep1]) ++
         [.terminate, .waitProc]) :=
  (start_chrome_poll_budget 9222 (str "127.0.0.1") (str "/usr/bin/google-chrome")
    (fun _ => .exn (str "refused"))).2 (fun _ _ => rfl)

/-!
## `start_agent` from `server/utils/browser.py` -/

/-- Oracles for `start_agent`: the outcome of `start_chrome_with_debug_port()`
(`(port, user_data_dir, connect_host)`, the process handle being opaque),
the result of `resolve_live_view_url(...)`, and the generated UUID. -/
structure StartEnv where
  startChrome : Except Str (Int × Str × Str)
  liveView : Option Str
  sessionId : Str

/-- Observable actions of `start_agent`. -/
inductive StartEv
  | startChrome
  | resolveLiveView
  | createBackgroundTask
deriving DecidableEq

/-- Embedding of `start_agent(user_id, url, profile, resume_url, ...)`: the
four validation checks raise `ValueError` before any resource acquisition;
then Chrome is started, the live-view URL resolved (falling back to the raw
`<public_cdp_url>/json` listing), and the background task scheduled.
`live_view_host` is the module-level `LIVE_VIEW_HOST`. -/
def start_agent (user_id url : Str) (profile : List (Str × Str))
    (resume_url live_view_host : Str) (env : StartEnv) :
    Except Str (Str × Str) × List StartEv :=
  if !pyTruthy user_id then (.error (str "User ID is required"), [])
  else if !pyTruthy url then (.error (str "URL is required"), [])
  else if profile.isEmpty then (.error (str "Profile is required"), [])
  else if !pyTruthy resume_url then
    (.error (str "Resume URL or file path is required"), [])
  else
    match env.startChrome with
    | .error e => (.error e, [.startChrome])
    | .ok (chrome_port, _, _) =>
      let public_cdp_url := str "http://" ++ live_view_host ++ str ":" ++ intStr chrome_port
      let live_view_url :=
        match env.liveView with
        | some u => if !u.isEmpty then u else public_cdp_url ++ str "/json"
        | none => public_cdp_url ++ str "/json"
      (.ok (env.sessionId, live_view_url),
       [.startChrome, .resolveLiveView, .createBackgroundTask])

/-- Claim C5: if any of `user_id`, `url`, `profile` or `resume_url` is
missing (empty), `start_agent` raises a `ValueError` synchronously before
`start_chrome_with_debug_port` is invoked: the result is an error and the
action trace is empty, so no browser process, temp directory, or other
resource is acquired. -/
theorem start_agent_validates_first (user_id url : Str) (profile : List (Str × Str))
    (resume_url live_view_host : Str) (env : StartEnv)
    (h : user_id = [] ∨ url = [] ∨ profile = [] ∨ resume_url = []) :
    (start_agent user_id url profile resume_url live_view_host env).1.isOk = false
    ∧ (start_agent user_id url profile resume_url live_view_host env).2 = [] := by
  have pn : pyTruthy [] = false := rfl
  rcases h with h | h | h | h <;> subst h
  · constructor <;> simp [start_agent, pn, Except.isOk, Except.toBool]
  · cases hu : pyTruthy user_id
    · constructor <;> simp [start_agent, hu, Except.isOk, Except.toBool]
    · constructor <;> simp [start_agent, hu, pn, Except.isOk, Except.toBool]
  · cases hu : pyTruthy user_id
    · constructor <;> simp [start_agent, hu, Except.isOk, Except.toBool]
    · cases hurl : pyTruthy url
      · constructor <;> simp [start_agent, hu, hurl, Except.isOk, Except.toBool]
      · constructor <;> simp [start_agent, hu, hurl, Except.isOk, Except.toBool]
  · cases hu : pyTruthy user_id
    · constructor <;> simp [start_agent, hu, Except.isOk, Except.toBool]
    · cases hurl : pyTruthy url
      · constructor <;> simp [start_agent, hu, hurl, Except.isOk, Except.toBool]
      · cases hp : profile.isEmpty
        · constructor <;>
            simp [start_agent, hu, hurl, hp, pn, Except.isOk, Except.toBool]
        · constructor <;> simp [start_agent, hu, hurl, hp, Except.isOk, Except.toBool]

/-- A concrete environment for `start_agent` witnesses. -/
def startEnvDemo : StartEnv :=
  ⟨.ok (9222, str "chrome_cdp_tmp", str "127.0.0.1"), none, str "sid-1"⟩

theorem start_agent_validates_first_witness :
    (start_agent (str "u1") (str "https://example.com/apply")
      [(str "name", str "Ada")] [] (str "127.0.0.1") startEnvDemo).1.isOk = false
    ∧ (start_agent (str "u1") (str "https://example.com/apply")
      [(str "name", str "Ada")] [] (str "127.0.0.1") startEnvDemo).2 = [] :=
  start_agent_validates_first (str "u1") (str "https://example.com/apply")
    [(str "name", str "Ada")] [] (str "127.0.0.1") startEnvDemo
    (Or.inr (Or.inr (Or.inr rfl)))

/-!
## A `urllib.parse` fragment

`_rewrite_ws_value` and `_rewrite_devtools_url` lean on `urllib.parse`
(`urlparse`, `urlunparse`, `parse_qs(keep_blank_values=True)`,
`urlencode(doseq=True)` with `quote_plus`, and the `.port` accessor).  The
fragment below transcribes the CPython behaviour for `str` inputs, with two
simplifications that no claim exercises: IPv6 bracket netlocs are not
modelled, and a non-numeric or out-of-range port (where CPython's `.port`
raises) is treated as absent. -/

/-- Split at the first occurrence of `c` (the separator removed). -/
def splitFirst (c : Char) : Str → Option (Str × Str)
  | [] => none
  | d :: rest =>
      if d = c then some ([], rest)
      else
        match splitFirst c rest with
        | some (a, b) => some (d :: a, b)
        | none => none

/-- Longest leading run of characters not in `stops`, and the remainder. -/
def spanNotIn (stops : List Char) : Str → Str × Str
  | [] => ([], [])
  | d :: rest =>
      if stops.contains d then ([], d :: rest)
      else
        let (a, b) := spanNotIn stops rest
        (d :: a, b)

/-- Does `sub` occur inside `s` (Python `sub in s`)? -/
def containsSub : Str → Str → Bool
  | s, sub =>
      if strStarts s sub then true
      else
        match s with
        | [] => false
        | _ :: rest => containsSub rest sub

/-- `scheme_chars` of `urllib.parse`. -/
def schemeChar (c : Char) : Bool :=
  c.isAlpha || c.isDigit || c = '+' || c = '-' || c = '.'

/-- Lower-case a string (ASCII, as in scheme normalisation). -/
def lowerStr (s : Str) : Str := s.map Char.toLower

/-- The six components of `urllib.parse.urlparse`. -/
structure UrlParts where
  scheme : Str
  netloc : Str
  path : Str
  params : Str
  query : Str
  fragment : Str
deriving DecidableEq

/-- `urlparse`'s `_splitparams`: split `;params` off the last path segment. -/
def splitParams (path : Str) : Str × Str :=
  let lastSeg := (path.reverse.takeWhile (fun c => c ≠ '/')).reverse
  let pre := path.take (path.length - lastSeg.length)
  match splitFirst ';' lastSeg with
  | some (a, b) => (pre ++ a, b)
  | none => (path, [])

/-- Embedding of `urllib.parse.urlparse` for `str` inputs: scheme (leading
alpha then scheme chars before `:`), `//netloc` delimited by `/?#`, fragment
after the first `#`, query after the first `?`, and params split from the
last path segment. -/
def pyUrlparse (url0 : Str) : UrlParts :=
  let (url1, fragment) :=
    match splitFirst '#' url0 with
    | some (a, b) => (a, b)
    | none => (url0, [])
  let (scheme, rest) :=
    match splitFirst ':' url1 with
    | some (a, b) =>
        if !a.isEmpty && (a.headD ' ').isAlpha && a.all schemeChar
        then (lowerStr a, b) else ([], url1)
    | none => ([], url1)
  let (netloc, rest2) :=
    if strStarts rest (str "//") then spanNotIn ['/', '?', '#'] (rest.drop 2)
    else ([], rest)
  let (path0, query) :=
    match splitFirst '?' rest2 with
    | some (a, b) => (a, b)
    | none => (rest2, [])
  let (path, params) := splitParams path0
  ⟨scheme, netloc, path, params, query, fragment⟩

/-- Embedding of `urllib.parse.urlunparse`. -/
def pyUrlunparse (p : UrlParts) : Str :=
  let url := if !p.params.isEmpty then p.path ++ str ";" ++ p.params else p.path
  let url :=
    if !p.netloc.isEmpty || strStarts url (str "//") then
      let url' := if !url.isEmpty && !strStarts url (str "/") then str "/" ++ url else url
      str "//" ++ p.netloc ++ url'
    else url
  let url := if !p.scheme.isEmpty then p.scheme ++ str ":" ++ url else url
  let url := if !p.query.isEmpty then url ++ str "?" ++ p.query else url
  if !p.fragment.isEmpty then url ++ str "#" ++ p.fragment else url

/-- The `.port` accessor of a parse result: the digits after the first `:`
of the host info (text after the last `@`). -/
def pyPort (netloc : Str) : Option Int :=
  let hostinfo := (netloc.reverse.takeWhile (fun c => c ≠ '@')).reverse
  match splitFirst ':' hostinfo with
  | none => none
  | some (_, port) =>
      if port.isEmpty then none
      else if port.all Char.isDigit then some (digitsVal port : Int) else none

/-- Hexadecimal digit value. -/
def hexVal (c : Char) : Option Nat :=
  if '0' ≤ c ∧ c ≤ '9' then some (c.toNat - '0'.toNat)
  else if 'a' ≤ c ∧ c ≤ 'f' then some (c.toNat - 'a'.toNat + 10)
  else if 'A' ≤ c ∧ c ≤ 'F' then some (c.toNat - 'A'.toNat + 10)
  else none

/-- `urllib.parse.unquote_plus` for ASCII data: `+` becomes a space and
`%XX` hex escapes are decoded; malformed escapes are left as-is. -/
def pyUnquotePlus : Str → Str
  | [] => []
  | '+' :: rest => ' ' :: pyUnquotePlus rest
  | '%' :: h1 :: h2 :: rest =>
      match hexVal h1, hexVal h2 with
      | some a, some b => Char.ofNat (16 * a + b) :: pyUnquotePlus rest
      | _, _ => '%' :: pyUnquotePlus (h1 :: h2 :: rest)
  | c :: rest => c :: pyUnquotePlus rest

/-- Python `s.split(c)` (always at least one chunk). -/
def splitAll (c : Char) : Str → List Str
  | [] => [[]]
  | d :: rest =>
      if d = c then [] :: splitAll c rest
      else
        match splitAll c rest with
        | a :: more => (d :: a) :: more
        | [] => [[d]]

/-- `urllib.parse.parse_qsl(qs, keep_blank_values=True)`: split on `&`,
skip empty chunks, split each chunk at the first `=` (a chunk without `=`
keeps a blank value), and unquote names and values. -/
def parse_qsl_kbv (qs : Str) : List (Str × Str) :=
  if qs.isEmpty then []
  else
    (splitAll '&' qs).filterMap fun nv =>
      if nv.isEmpty then none
      else
        match splitFirst '=' nv with
        | some (n, v) => some (pyUnquotePlus n, pyUnquotePlus v)
        | none => some (pyUnquotePlus nv, [])

/-- Append `v` under key `k`, preserving first-insertion order (Python dict). -/
def qsInsert (d : List (Str × List Str)) (k v : Str) : List (Str × List Str) :=
  match d with
  | [] => [(k, [v])]
  | (k', vs) :: rest =>
      if k' = k then (k', vs ++ [v]) :: rest else (k', vs) :: qsInsert rest k v

/-- `urllib.parse.parse_qs(qs, keep_blank_values=True)` as an ordered
association list. -/
def parse_qs_kbv (qs : Str) : List (Str × List Str) :=
  (parse_qsl_kbv qs).foldl (fun d p => qsInsert d p.1 p.2) []

/-- `dict.get`. -/
def qsGet (d : List (Str × List Str)) (k : Str) : Option (List Str) :=
  (d.find? (fun p => p.1 == k)).map (fun p => p.2)

/-- `dict.__setitem__`: replace in place, or append if the key is new. -/
def qsSet (d : List (Str × List Str)) (k : Str) (vs : List Str) :
    List (Str × List Str) :=
  match d with
  | [] => [(k, vs)]
  | (k', vs') :: rest =>
      if k' = k then (k', vs) :: rest else (k', vs') :: qsSet rest k vs

/-- Characters `quote` never encodes (`_ALWAYS_SAFE` without extras). -/
def alwaysSafe (c : Char) : Bool :=
  c.isAlpha || c.isDigit || c = '_' || c = '.' || c = '-' || c = '~'

/-- Upper-case hex digit. -/
def hexDigitUpper (n : Nat) : Char :=
  if n < 10 then Char.ofNat ('0'.toNat + n) else Char.ofNat ('A'.toNat + n - 10)

/-- Percent-encode one ASCII character. -/
def pctEncode (c : Char) : Str :=
  ['%', hexDigitUpper (c.toNat / 16), hexDigitUpper (c.toNat % 16)]

/-- `urllib.parse.quote` for ASCII data with extra safe characters. -/
def pyQuote (safe : List Char) (s : Str) : Str :=
  s.flatMap fun c => if alwaysSafe c || safe.contains c then [c] else pctEncode c

/-- `urllib.parse.quote_plus`: spaces become `+`, everything else as `quote`. -/
def pyQuotePlus (s : Str) : Str :=
  if s.contains ' ' then
    (pyQuote [' '] s).map (fun c => if c = ' ' then '+' else c)
  else pyQuote [] s

/-- Join with `&`. -/
def joinAmp : List Str → Str
  | [] => []
  | [s] => s
  | s :: rest => s ++ str "&" ++ joinAmp rest

/-- `urllib.parse.urlencode(query, doseq=True)` over an ordered association
list with list values: one `quote_plus(k)=quote_plus(v)` pair per element. -/
def pyUrlencode (query : List (Str × List Str)) : Str :=
  joinAmp (query.flatMap fun p => p.2.map fun v =>
    pyQuotePlus p.1 ++ str "=" ++ pyQuotePlus v)

/-- Python `s.lstrip('/')`. -/
def lstripSlash (s : Str) : Str := s.dropWhile (fun c => c = '/')

/-- Embedding of `_rewrite_ws_value(value, host, port)` from
`server/utils/browser.py`: adjust a websocket debugger target to use the
public host.  `parsed.port or port` keeps Python truthiness (port 0 is
falsy). -/
def rewrite_ws_value (value : Str) (host : Str) (port : Int) : Str :=
  if host = str "127.0.0.1" ∨ host = str "localhost" then value
  else if strStarts value (str "ws://") || strStarts value (str "wss://") then
    let parsed := pyUrlparse value
    let current_port : Int :=
      match pyPort parsed.netloc with
      | some p => if p ≠ 0 then p else port
      | none => port
    let new_netloc := host ++ str ":" ++ intStr current_port
    pyUrlunparse { parsed with netloc := new_netloc }
  else if !containsSub value (str "://") then
    if value.contains '/' then
      match splitFirst '/' value with
      | some (_, remainder) => host ++ str ":" ++ intStr port ++ str "/" ++ remainder
      | none => host ++ str ":" ++ intStr port
    else host ++ str ":" ++ intStr port
  else value

/-- Embedding of `_rewrite_devtools_url(url, public_host, port, connect_host)`
from `server/utils/browser.py`. -/
def rewrite_devtools_url (url : Str) (public_host : Str) (port : Int)
    (connect_host : Str) : Str :=
  if url.isEmpty then url
  else
    let absolute_url :=
      if strStarts url (str "/") then
        str "http://" ++ connect_host ++ str ":" ++ intStr port ++ url
      else if !containsSub url (str "://") then
        str "http://" ++ connect_host ++ str ":" ++ intStr port ++ str "/"
          ++ lstripSlash url
      else url
    if public_host = str "127.0.0.1" ∨ public_host = str "localhost" then absolute_url
    else
      let parsed := pyUrlparse absolute_url
      let query := parse_qs_kbv parsed.query
      let ws_values := qsGet query (str "ws")
      let query2 :=
        match ws_values with
        | some (v :: _) => qsSet query (str "ws") [rewrite_ws_value v public_host port]
        | _ => query
      let new_query := pyUrlencode query2
      let netloc :=
        if parsed.netloc = connect_host
            ∨ parsed.netloc = connect_host ++ str ":" ++ intStr port
        then public_host ++ str ":" ++ intStr port
        else parsed.netloc
      pyUrlunparse { parsed with netloc := netloc, query := new_query }

/-- Claim C8: for a raw frontend URL whose embedded `ws` query parameter
references `127.0.0.1:9222/devtools/page/ABC`, with connect host
`127.0.0.1`, port 9222 and public host `public.example.com`,
`_rewrite_devtools_url` returns a URL whose network location is
`public.example.com:9222` and whose embedded websocket reference is
rewritten to the same public host (URL-encoded in the query string, decoding
back to `public.example.com:9222/devtools/page/ABC`), with the path and the
other query parameter `foo=bar` unchanged. -/
theorem rewrite_devtools_public_host :
    rewrite_devtools_url
        (str "/devtools/inspector.html?ws=127.0.0.1:9222/devtools/page/ABC&foo=bar")
        (str "public.example.com") 9222 (str "127.0.0.1") =
      str ("http://public.example.com:9222/devtools/inspector.html" ++
        "?ws=public.example.com%3A9222%2Fdevtools%2Fpage%2FABC&foo=bar")
    ∧ (pyUrlparse (rewrite_devtools_url
        (str "/devtools/inspector.html?ws=127.0.0.1:9222/devtools/page/ABC&foo=bar")
        (str "public.example.com") 9222 (str "127.0.0.1"))).netloc =
      str "public.example.com:9222"
    ∧ (pyUrlparse (rewrite_devtools_url
        (str "/devtools/inspector.html?ws=127.0.0.1:9222/devtools/page/ABC&foo=bar")
        (str "public.example.com") 9222 (str "127.0.0.1"))).path =
      str "/devtools/inspector.html"
    ∧ parse_qs_kbv (pyUrlparse (rewrite_devtools_url
        (str "/devtools/inspector.html?ws=127.0.0.1:9222/devtools/page/ABC&foo=bar")
        (str "public.example.com") 9222 (str "127.0.0.1"))).query =
      [(str "ws", [str "public.example.com:9222/devtools/page/ABC"]),
       (str "foo", [str "bar"])] := by
  refine ⟨?_, ?_, ?_, ?_⟩ <;> decide

/-!
## `resolve_live_view_url` from `server/utils/browser.py`

`fetch a ep` is the outcome of the HTTP GET in attempt `a` (1-based) against
endpoint `ep` (0 = `/json/list`, 1 = `/json`). -/

/-- One CDP target dict as returned by `/json/list` or `/json`; absent keys
are `none` (`target.get(...)`). -/
structure Target where
  type : Str
  devtoolsFrontendUrlCompat : Option Str
  devtoolsFrontendUrl : Option Str
deriving DecidableEq

/-- Outcome of fetching one discovery endpoint. -/
inductive FetchResult
  | resp (status : Int) (targets : List Target)  -- response with parsed JSON body
  | exn (msg : Str)                              -- the request (or `.json()`) raised

/-- Observable actions of `resolve_live_view_url`. -/
inductive LiveEv
  | get (attempt endpointIdx : Nat)   -- GET; endpoint 0 = `/json/list`, 1 = `/json`
  | sleepHalfTimes (attempt : Nat)    -- `await asyncio.sleep(0.5 * attempt)`
deriving DecidableEq

/-- The frontend URL chosen from one target: a truthy
`devtoolsFrontendUrlCompat` wins, else a truthy `devtoolsFrontendUrl`. -/
def targetUrl (t : Target) : Option Str :=
  if pyOptTruthy t.devtoolsFrontendUrlCompat then t.devtoolsFrontendUrlCompat
  else if pyOptTruthy t.devtoolsFrontendUrl then t.devtoolsFrontendUrl
  else none

/-- The inner `for target in targets` loop: skip targets whose `type` is not
`"page"`, return the first truthy frontend URL found. -/
def firstPageUrl : List Target → Option Str
  | [] => none
  | t :: rest =>
      if t.type = str "page" then
        match targetUrl t with
        | some u => some u
        | none => firstPageUrl rest
      else firstPageUrl rest

/-- Processing of one endpoint fetch: an exception or a non-200 status
yields nothing (`continue`); a 200 body is scanned for a page target. -/
def endpointUrl (fr : FetchResult) : Option Str :=
  match fr with
  | .exn _ => none
  | .resp status targets => if status ≠ 200 then none else firstPageUrl targets

/-- The `for attempt in range(1, 8)` loop: try `/json/list` then `/json`,
return the rewritten URL on the first hit, otherwise sleep `0.5 * attempt`
seconds and retry. -/
def resolveLoop (fetch : Nat → Nat → FetchResult) (public_host : Str) (port : Int)
    (connect_host : Str) : Nat → Nat → Option Str × List LiveEv
  | 0, _ => (none, [])
  | n + 1, a =>
      match endpointUrl (fetch a 0) with
      | some u =>
          (some (rewrite_devtools_url u public_host port connect_host), [.get a 0])
      | none =>
          match endpointUrl (fetch a 1) with
          | some u =>
              (some (rewrite_devtools_url u public_host port connect_host),
               [.get a 0, .get a 1])
          | none =>
              let rest := resolveLoop fetch public_host port connect_host n (a + 1)
              (rest.1, .get a 0 :: .get a 1 :: .sleepHalfTimes a :: rest.2)

/-- Embedding of `resolve_live_view_url(port, connect_host, public_host)`:
seven attempts starting at attempt number 1; if nothing is found the
function logs and returns `None` (it never raises). -/
def resolve_live_view_url (fetch : Nat → Nat → FetchResult) (port : Int)
    (connect_host public_host : Str) : Option Str × List LiveEv :=
  resolveLoop fetch public_host port connect_host 7 1

theorem resolveLoop_eq_findSome (fetch : Nat → Nat → FetchResult)
    (public_host : Str) (port : Int) (connect_host : Str) (n a : Nat) :
    (resolveLoop fetch public_host port connect_host n a).1 =
      (((List.range' a n).flatMap (fun i => [(i, 0), (i, 1)])).findSome?
          (fun p => endpointUrl (fetch p.1 p.2))).map
        (fun u => rewrite_devtools_url u public_host port connect_host) := by
  induction n generalizing a with
  | zero => simp [resolveLoop]
  | succ n ih =>
    cases h0 : endpointUrl (fetch a 0) with
    | some u =>
      simp [resolveLoop, h0, List.range'_succ, List.findSome?_cons]
    | none =>
      cases h1 : endpointUrl (fetch a 1) with
      | some u =>
        simp [resolveLoop, h0, h1, List.range'_succ, List.findSome?_cons]
      | none =>
        simp [resolveLoop, h0, h1, List.range'_succ, List.findSome?_cons, ih]

theorem resolveLoop_all_none (fetch : Nat → Nat → FetchResult)
    (public_host : Str) (port : Int) (connect_host : Str) (n a : Nat)
    (h : ∀ i, a ≤ i → i < a + n →
      endpointUrl (fetch i 0) = none ∧ endpointUrl (fetch i 1) = none) :
    resolveLoop fetch public_host port connect_host n a =
      (none, (List.range' a n).flatMap
        (fun i => [.get i 0, .get i 1, .sleepHalfTimes i])) := by
  induction n generalizing a with
  | zero => simp [resolveLoop]
  | succ n ih =>
    obtain ⟨h0, h1⟩ := h a (le_refl a) (by omega)
    simp [resolveLoop, h0, h1, List.range'_succ,
      ih (a + 1) (fun i hi1 hi2 => h i (by omega) (by omega))]

/-- Claim C7: live-view discovery makes up to 7 attempts, each querying
`/json/list` then `/json`; its value is the first frontend URL found in
attempt order (rewritten for the public host); when every fetch yields
nothing it performs exactly the 7 attempt rounds with linearly increasing
backoff (`sleep 0.5 × attempt` after each failed round) and returns `None`
rather than raising; only targets with `type == "page"` are considered, and
a truthy `devtoolsFrontendUrlCompat` is preferred over
`devtoolsFrontendUrl`. -/
theorem resolve_live_view_spec (fetch : Nat → Nat → FetchResult) (port : Int)
    (connect_host public_host : Str) :
    ((resolve_live_view_url fetch port connect_host public_host).1 =
      (((List.range' 1 7).flatMap (fun a => [(a, 0), (a, 1)])).findSome?
          (fun p => endpointUrl (fetch p.1 p.2))).map
        (fun u => rewrite_devtools_url u public_host port connect_host))
    ∧ ((∀ a, 1 ≤ a → a < 8 →
          endpointUrl (fetch a 0) = none ∧ endpointUrl (fetch a 1) = none) →
        resolve_live_view_url fetch port connect_host public_host =
          (none, (List.range' 1 7).flatMap
            (fun a => [.get a 0, .get a 1, .sleepHalfTimes a])))
    ∧ (∀ ts : List Target, (∀ t ∈ ts, t.type ≠ str "page") → firstPageUrl ts = none)
    ∧ (∀ (t : Target) (rest : List Target), t.type = str "page" →
        pyOptTruthy t.devtoolsFrontendUrlCompat = true →
        firstPageUrl (t :: rest) = t.devtoolsFrontendUrlCompat) := by
  refine ⟨?_, ?_, ?_, ?_⟩
  · exact resolveLoop_eq_findSome fetch public_host port connect_host 7 1
  · intro h
    exact resolveLoop_all_none fetch public_host port connect_host 7 1
      (fun i hi1 hi2 => h i hi1 (by omega))
  · intro ts h
    induction ts with
    | nil => rfl
    | cons t rest ih =>
      have ht : t.type ≠ str "page" := h t (List.mem_cons_self t rest)
      simp [firstPageUrl, ht]
      exact ih (fun t' ht' => h t' (List.mem_cons_of_mem t ht'))
  · intro t rest htype htruthy
    cases hc : t.devtoolsFrontendUrlCompat with
    | none => rw [hc] at htruthy; simp [pyOptTruthy] at htruthy
    | some u =>
      rw [hc] at htruthy
      simp [firstPageUrl, htype, targetUrl, hc, htruthy]

theorem resolve_live_view_spec_witness :
    resolve_live_view_url (fun _ _ => .exn (str "refused")) 9222
        (str "127.0.0.1") (str "127.0.0.1") =
      (none, (List.range' 1 7).flatMap
        (fun a => [.get a 0, .get a 1, .sleepHalfTimes a])) :=
  (resolve_live_view_spec (fun _ _ => .exn (str "refused")) 9222
    (str "127.0.0.1") (str "127.0.0.1")).2.1 (fun _ _ _ => ⟨rfl, rfl⟩)
